import Mathlib

/-!
# clap-host: plugin ↔ GUI bridge

A shallow embedding of `src/plugins/gui/application.cc` (the GUI-side message
handler) and `src/plugins/gui/remote-gui.cc` (the plugin-side child process
controller), with the properties of the specification stated over it.

Conventions of the embedding:

* calls that leave the translated files (the remote channel, the host, the
  operating system, the Qt view) are recorded, in program order, in a log;
* results that come back from outside (system call results, host replies, the
  outcome of a synchronous request) are inputs of the embedded function;
* a C `double` is carried as its 64-bit pattern, since it is only ever copied.
-/

namespace ClapHost

/-! ## Message catalogue -/

/-- Modelled from the spec: the message kinds of `io/messages.hh`, which is not
among the sources. The names are the enumerators used by `application.cc` and
`remote-gui.cc`; the response kinds are the `type` of the response structures
those files instantiate (`SizeResponse`, `SetScaleResponse`, `AttachResponse`,
`ShowResponse`, `HideResponse`, `DestroyResponse`). -/
inductive MsgType where
  | kDestroyRequest
  | kDestroyResponse
  | kUpdateTransportRequest
  | kDefineParameterRequest
  | kParameterValueRequest
  | kSizeRequest
  | kSizeResponse
  | kSetScaleRequest
  | kSetScaleResponse
  | kAttachX11Request
  | kAttachWin32Request
  | kAttachCocoaRequest
  | kAttachResponse
  | kShowRequest
  | kShowResponse
  | kHideRequest
  | kHideResponse
  | kAdjustRequest
  | kSubscribeToTransportRequest
  deriving DecidableEq, Repr

/-- Bit pattern of a C `double`. -/
abbrev Double := Nat

/-- Modelled from the spec: `messages::SizeResponse` of `io/messages.hh`, with
the two fields written by `application.cc` and read by `remote-gui.cc`. -/
structure SizeResponse where
  width : Nat
  height : Nat
  deriving DecidableEq, Repr

/-- Modelled from the spec: `messages::SetScaleResponse` of `io/messages.hh`. -/
structure SetScaleResponse where
  succeed : Bool
  deriving DecidableEq, Repr

/-- Modelled from the spec: `messages::AttachResponse` of `io/messages.hh`. -/
structure AttachResponse where
  succeed : Bool
  deriving DecidableEq, Repr

/-- Modelled from the spec: the payload structures of `io/messages.hh`, one
constructor per structure, with the fields that the translated files read or
write. Host ABI structures (`clap_param_info`, `clap_event_transport`) are
opaque octets. A message whose payload is not the structure of its kind is not
well formed; a handler that decodes it sees zeroed fields. -/
inductive Payload where
  | empty
  | updateTransport (hasTransport : Bool) (transport : List Nat)
  | defineParameter (info : List Nat)
  | parameterValue (paramId : Nat) (value : Double) (modulation : Double)
  | sizeResponse (rp : SizeResponse)
  | setScaleRequest (scale : Double)
  | setScaleResponse (rp : SetScaleResponse)
  | attachX11Request (display : List Char) (window : Nat)
  | attachWin32Request (hwnd : Nat)
  | attachCocoaRequest (nsView : Nat)
  | attachResponse (rp : AttachResponse)
  | adjustRequest (paramId : Nat) (value : Double) (flags : Nat)
  | subscribeToTransportRequest (isSubscribed : Bool)
  deriving DecidableEq, Repr

/-- A channel message: kind, cookie and payload (`RemoteChannel::Message`). -/
structure Message where
  type : MsgType
  cookie : Nat
  payload : Payload
  deriving DecidableEq, Repr

/-- Modelled from the spec: the Message Catalogue column "Mode"; the request
kinds marked sync. -/
def syncRequestKinds : List MsgType :=
  [.kSizeRequest, .kSetScaleRequest, .kAttachX11Request, .kAttachWin32Request,
   .kAttachCocoaRequest, .kShowRequest, .kHideRequest, .kDestroyRequest]

/-- Modelled from the spec: the response kind that answers a request kind, as
given by the response structure the plugin side waits for in `remote-gui.cc`
(`size`, `setScale`, `attachX11`, `attachWin32`, `attachCocoa`) and the GUI side
sends in `application.cc` (`Show`, `Hide`, `Destroy`). -/
def responseKind : MsgType → Option MsgType
  | .kSizeRequest => some .kSizeResponse
  | .kSetScaleRequest => some .kSetScaleResponse
  | .kAttachX11Request => some .kAttachResponse
  | .kAttachWin32Request => some .kAttachResponse
  | .kAttachCocoaRequest => some .kAttachResponse
  | .kShowRequest => some .kShowResponse
  | .kHideRequest => some .kHideResponse
  | .kDestroyRequest => some .kDestroyResponse
  | _ => none

/-! ## GUI side: `Application::onMessage` -/

/-- Which of the Qt platform macros tested by `application.cc` are defined. -/
structure GuiPlatform where
  Q_OS_LINUX : Bool
  Q_OS_WIN : Bool
  Q_OS_MACOS : Bool
  deriving DecidableEq, Repr

/-- Calls made by `Application::onMessage` on its collaborators other than the
remote channel. -/
inductive GuiCall where
  | quit
  | transportUpdate (hasTransport : Bool) (transport : List Nat)
  | defineParameter (info : List Nat)
  | setValueFromPlugin (paramId : Nat) (value : Double)
  | setModulationFromPlugin (paramId : Nat) (modulation : Double)
  | hostWindowReset (winId : Nat)
  | setParent
  | show
  | hide
  | sync
  deriving DecidableEq, Repr

/-- The part of `Application` that `onMessage` reads and writes.
`rootObject` is `_quickView->rootObject()`: `none` for a null pointer, else the
item's width and height as converted to `uint32_t`. `sent` holds the calls
`_remoteChannel->sendResponseAsync(rp, cookie)`, oldest first. -/
structure Application where
  rootObject : Option (Nat × Nat)
  sent : List Message
  calls : List GuiCall
  deriving DecidableEq, Repr

namespace Application

/-- The call `_remoteChannel->sendResponseAsync(rp, cookie)`; the message kind is
the `type` of the response structure. -/
def sendResponseAsync (app : Application) (type : MsgType) (rp : Payload) (cookie : Nat) :
    Application :=
  { app with sent := app.sent ++ [⟨type, cookie, rp⟩] }

/-- A call on the view, a proxy or the application itself. -/
def call (app : Application) (c : GuiCall) : Application :=
  { app with calls := app.calls ++ [c] }

/-- The attach sequence that is compiled in on the matching platform:
`_hostWindow.reset(QWindow::fromWinId(..))`, `setParent`, `show`, `sync`. The
macOS branch spells two members `hostWindow_` and `quickView_`; it is read as
the same sequence. -/
def embed (app : Application) (winId : Nat) : Application :=
  (((app.call (.hostWindowReset winId)).call .setParent).call .show).call .sync

/-- The handler `Application::onMessage` (application.cc, lines 127-233). A kind
without a `case` label leaves the `switch` without doing anything. -/
def onMessage (plat : GuiPlatform) (app : Application) (msg : Message) : Application :=
  match msg.type with
  | .kDestroyRequest =>
      (app.sendResponseAsync .kDestroyResponse .empty msg.cookie).call .quit
  | .kUpdateTransportRequest =>
      match msg.payload with
      | .updateTransport hasTransport transport =>
          app.call (.transportUpdate hasTransport transport)
      | _ => app.call (.transportUpdate false [])
  | .kDefineParameterRequest =>
      match msg.payload with
      | .defineParameter info => app.call (.defineParameter info)
      | _ => app.call (.defineParameter [])
  | .kParameterValueRequest =>
      match msg.payload with
      | .parameterValue paramId value modulation =>
          (app.call (.setValueFromPlugin paramId value)).call
            (.setModulationFromPlugin paramId modulation)
      | _ => (app.call (.setValueFromPlugin 0 0)).call (.setModulationFromPlugin 0 0)
  | .kSizeRequest =>
      let width := match app.rootObject with
        | some (w, _) => w
        | none => 500
      let height := match app.rootObject with
        | some (_, h) => h
        | none => 300
      app.sendResponseAsync .kSizeResponse (.sizeResponse ⟨width, height⟩) msg.cookie
  | .kAttachX11Request =>
      let window := match msg.payload with
        | .attachX11Request _ window => window
        | _ => 0
      if plat.Q_OS_LINUX then
        (app.embed window).sendResponseAsync .kAttachResponse (.attachResponse ⟨true⟩) msg.cookie
      else
        app.sendResponseAsync .kAttachResponse (.attachResponse ⟨false⟩) msg.cookie
  | .kAttachWin32Request =>
      let hwnd := match msg.payload with
        | .attachWin32Request hwnd => hwnd
        | _ => 0
      if plat.Q_OS_WIN then
        (app.embed hwnd).sendResponseAsync .kAttachResponse (.attachResponse ⟨true⟩) msg.cookie
      else
        app.sendResponseAsync .kAttachResponse (.attachResponse ⟨false⟩) msg.cookie
  | .kAttachCocoaRequest =>
      let nsView := match msg.payload with
        | .attachCocoaRequest nsView => nsView
        | _ => 0
      if plat.Q_OS_MACOS then
        (app.embed nsView).sendResponseAsync .kAttachResponse (.attachResponse ⟨true⟩) msg.cookie
      else
        app.sendResponseAsync .kAttachResponse (.attachResponse ⟨false⟩) msg.cookie
  | .kShowRequest =>
      (app.call .show).sendResponseAsync .kShowResponse .empty msg.cookie
  | .kHideRequest =>
      (app.call .hide).sendResponseAsync .kHideResponse .empty msg.cookie
  | _ => app

end Application

/-! ## Plugin side: `RemoteGui` -/

/-- The constant `CLAP_INVALID_ID` of the CLAP ABI (`UINT32_MAX`). -/
def CLAP_INVALID_ID : Nat := 4294967295

/-- The flag `CLAP_POSIX_FD_READ` of the CLAP ABI (`1 << 0`). -/
def CLAP_POSIX_FD_READ : Nat := 1

/-- The flag `CLAP_POSIX_FD_ERROR` of the CLAP ABI (`1 << 2`). -/
def CLAP_POSIX_FD_ERROR : Nat := 4

/-- The value of `errno` after an interrupted system call (Linux). -/
def EINTR : Nat := 4

/-- The two families of targets `remote-gui.cc` is compiled for: `unix` has
`__unix__` and `__unix` defined, `win32` has `_WIN32` defined. -/
inductive Platform where
  | unix
  | win32
  deriving DecidableEq, Repr

/-- The transport endpoint a channel is constructed over: the local socket, or
the inbound and outbound pipe handles. -/
inductive Endpoint where
  | socket (fd : Int)
  | pipes (rx : Nat) (tx : Nat)
  deriving DecidableEq, Repr

/-- Modelled from the spec: the `RemoteChannel` object of `remote-channel.hh`,
which is not among the sources, reduced to its endpoint and its open flag. -/
structure RemoteChannel where
  endpoint : Endpoint
  isOpen : Bool
  deriving DecidableEq, Repr

/-- Modelled from the spec: the observer `fd()` of the channel. -/
def RemoteChannel.fd (ch : RemoteChannel) : Int :=
  match ch.endpoint with
  | .socket fd => fd
  | .pipes _ _ => -1

/-- The structure `RemoteGuiWin32Data`, reduced to the process handle of
`_childInfo`. -/
structure RemoteGuiWin32Data where
  hProcess : Nat
  deriving DecidableEq, Repr

/-- Calls that leave `remote-gui.cc`, as they appear in the log. -/
inductive Call where
  | socketpair
  | fork
  | close (fd : Int)
  | createNamedPipe (name : List Char)
  | createProcess (cmdline : List Char)
  | connectNamedPipe (handle : Nat)
  | closeHandle (handle : Nat)
  | channelNew (endpoint : Endpoint)
  | posixFdSupportRegister (fd : Int) (flags : Nat)
  | posixFdSupportUnregister (fd : Int)
  | timerSupportRegister (periodMs : Nat)
  | timerSupportUnregister (timerId : Nat)
  | sendRequestAsync (type : MsgType) (payload : Payload)
  | channelClose
  | channelReset
  | waitpid (pid : Int)
  | waitForSingleObject (handle : Nat)
  | guiAdjust (paramId : Nat) (value : Double) (flags : Nat)
  deriving DecidableEq, Repr

/-- The members of `RemoteGui` (remote-gui.hh), with `_isTransportSubscribed` of
its base class. `_child` exists on `unix`, `_data` on `win32`. -/
structure RemoteGui where
  _channel : Option RemoteChannel
  _timerId : Nat
  _child : Int
  _data : Option RemoteGuiWin32Data
  _isTransportSubscribed : Bool
  deriving DecidableEq, Repr

/-- The plugin process as `RemoteGui` sees it: the object itself, the
descriptors and handles the process holds open, the registrations the host
holds (descriptor with flags, timer id with period), the function-local
`static int counter` of `spawn`, and the log of outgoing calls. -/
structure World where
  gui : RemoteGui
  openFds : List Int
  openHandles : List Nat
  hostFds : List (Int × Nat)
  hostTimers : List (Nat × Nat)
  counter : Nat
  log : List Call
  deriving DecidableEq, Repr

namespace World

/-- Append a call to the log. -/
def record (w : World) (c : Call) : World :=
  { w with log := w.log ++ [c] }

/-- The call `::close(fd)`. -/
def close (w : World) (fd : Int) : World :=
  { w.record (.close fd) with openFds := w.openFds.erase fd }

/-- The call `CloseHandle(h)`. -/
def closeHandle (w : World) (h : Nat) : World :=
  { w.record (.closeHandle h) with openHandles := w.openHandles.erase h }

/-- Assignment to `_channel`. -/
def setChannel (w : World) (ch : Option RemoteChannel) : World :=
  { w with gui := { w.gui with _channel := ch } }

/-- Assignment to `_timerId`. -/
def setTimerId (w : World) (id : Nat) : World :=
  { w with gui := { w.gui with _timerId := id } }

/-- Assignment to `_child`. -/
def setChild (w : World) (pid : Int) : World :=
  { w with gui := { w.gui with _child := pid } }

/-- Assignment to `_data`. -/
def setData (w : World) (d : Option RemoteGuiWin32Data) : World :=
  { w with gui := { w.gui with _data := d } }

end World

/-- What the outside answers during one call of `spawn`: the host's capability
queries, the path provider, `socketpair` (`none` for a non-zero return, else the
two descriptors), `fork`, the host's replies to the two registrations (for the
timer, `none` for false, else the id written through the pointer), and on
`win32` the process id, the handles returned by the two `CreateNamedPipe` calls
and `CreateProcess` (`none` for FALSE, else the process handle). -/
structure SpawnEnv where
  canUseTimerSupport : Bool
  canUsePosixFdSupport : Bool
  guiExecutable : List Char
  skinDirectory : List Char
  qmlLibDirectory : List Char
  socketpair : Option (Int × Int)
  fork : Int
  posixFdSupportRegister : Bool
  timerSupportRegister : Option Nat
  processId : Nat
  pluginToGuiPipe : Nat
  guiToPluginPipe : Nat
  createProcess : Option Nat
  deriving DecidableEq, Repr

/-- How a call of `spawn` ends: an `assert` at its head fails, or the forked
child replaces itself through `execl` (or terminates) and never returns, or the
call returns a boolean in the plugin process. -/
inductive SpawnResult where
  | assertFailed
  | child (argv : List (List Char))
  | returned (ok : Bool) (w : World)
  deriving DecidableEq, Repr

/-- The double quote character. -/
def dquote : Char := Char.ofNat 34

/-- The backslash character. -/
def backslash : Char := Char.ofNat 92

/-- The function `escapeArg` (remote-gui.cc, lines 25-27): every double quote of
`s` is replaced by a backslash and a double quote (the regular expression
matches one double quote, the format string has no `$`), and the result is put
between double quotes. -/
def escapeArg (s : List Char) : List Char :=
  [dquote] ++ s.flatMap (fun c => if c = dquote then [backslash, dquote] else [c]) ++ [dquote]

/-- One hexadecimal digit, lower case. -/
def hexDigit (d : Nat) : Char :=
  if d < 10 then Char.ofNat (48 + d) else Char.ofNat (87 + d)

/-- The conversion `%08x` of a 32-bit value. -/
def hex8 (n : Nat) : List Char :=
  (List.range 8).reverse.map (fun i => hexDigit (n % 4294967296 / 16 ^ i % 16))

/-- The pipe name written by `snprintf` into `pipeInPath`. -/
def pipeInPath (pid counter : Nat) : List Char :=
  "\\\\.\\pipe\\clap-plugtogui.".toList ++ hex8 pid ++ ['.'] ++ hex8 counter

/-- The pipe name written by `snprintf` into `pipeOutPath`. -/
def pipeOutPath (pid counter : Nat) : List Char :=
  "\\\\.\\pipe\\clap-guitoplug.".toList ++ hex8 pid ++ ['.'] ++ hex8 counter

/-- The command line assembled by `spawn` on `win32` (lines 159-162), cut to the
32 KiB buffer it is copied into. -/
def cmdline (path skin qmlLib pipeIn pipeOut : List Char) : List Char :=
  (escapeArg path ++ " --skin ".toList ++ escapeArg skin ++ " --qml-import ".toList
    ++ escapeArg qmlLib ++ " --pipe-in ".toList ++ pipeIn ++ " --pipe-out ".toList
    ++ pipeOut).take (32 * 1024 - 1)

namespace RemoteGui

/-- The method `RemoteGui::registerTimer` (lines 39-42). The host's reply is
`reply`; the return value of `timerSupportRegister` is not looked at. -/
def registerTimer (reply : Option Nat) (w : World) : World :=
  let w := w.setTimerId CLAP_INVALID_ID
  let w := w.record (.timerSupportRegister (1000 / 60))
  match reply with
  | some id => { w.setTimerId id with hostTimers := w.hostTimers ++ [(id, 1000 / 60)] }
  | none => w

/-- The call `_plugin._host.posixFdSupportRegister(fd, flags)`; the host keeps
the registration when it accepts. -/
def posixFdSupportRegister (accepted : Bool) (fd : Int) (flags : Nat) (w : World) : World :=
  let w := w.record (.posixFdSupportRegister fd flags)
  if accepted then { w with hostFds := w.hostFds ++ [(fd, flags)] } else w

/-- The `unix` branch of `RemoteGui::spawn` (lines 44-106). -/
def spawnUnix (env : SpawnEnv) (w : World) : SpawnResult :=
  if w.gui._child ≠ -1 then .assertFailed
  else if w.gui._channel.isSome then .assertFailed
  else if !env.canUseTimerSupport || !env.canUsePosixFdSupport then .returned false w
  else
    match env.socketpair with
    | none => .returned false (w.record .socketpair)
    | some (s0, s1) =>
        let w := { w.record .socketpair with openFds := s0 :: s1 :: w.openFds }
        let w := (w.record .fork).setChild env.fork
        if env.fork = -1 then
          .returned false ((w.close s0).close s1)
        else if env.fork = 0 then
          .child [env.guiExecutable, "--socket".toList, (toString s1).toList,
                  "--skin".toList, env.skinDirectory,
                  "--qml-import".toList, env.qmlLibDirectory]
        else
          let w := w.close s1
          let w := (w.record (.channelNew (.socket s0))).setChannel (some ⟨.socket s0, true⟩)
          let w := posixFdSupportRegister env.posixFdSupportRegister s0
            (CLAP_POSIX_FD_READ ||| CLAP_POSIX_FD_ERROR) w
          let w := registerTimer env.timerSupportRegister w
          .returned true w

/-- The `win32` branch of `RemoteGui::spawn` (lines 44-65 and 108-195). The
labels `fail2`, `fail1`, `fail0` fall through into each other. -/
def spawnWin32 (env : SpawnEnv) (w : World) : SpawnResult :=
  if w.gui._data.isSome then .assertFailed
  else if w.gui._channel.isSome then .assertFailed
  else if !env.canUseTimerSupport || !env.canUsePosixFdSupport then .returned false w
  else
    let w := { w with counter := w.counter + 1 }
    let pipeIn := pipeInPath env.processId w.counter
    let pipeOut := pipeOutPath env.processId w.counter
    let w := w.setData (some ⟨0⟩)
    let fail0 := fun (w : World) => SpawnResult.returned false (w.setData none)
    let fail1 := fun (w : World) => fail0 (w.closeHandle env.pluginToGuiPipe)
    let fail2 := fun (w : World) => fail1 (w.closeHandle env.guiToPluginPipe)
    let w := w.record (.createNamedPipe pipeIn)
    if env.pluginToGuiPipe = 0 then fail0 w
    else
      let w := { w with openHandles := env.pluginToGuiPipe :: w.openHandles }
      let w := w.record (.createNamedPipe pipeOut)
      if env.guiToPluginPipe = 0 then fail1 w
      else
        let w := { w with openHandles := env.guiToPluginPipe :: w.openHandles }
        let w := w.record (.createProcess
          (cmdline env.guiExecutable env.skinDirectory env.qmlLibDirectory pipeIn pipeOut))
        match env.createProcess with
        | none => fail2 w
        | some hProcess =>
            let w := w.setData (some ⟨hProcess⟩)
            let w := w.record (.connectNamedPipe env.guiToPluginPipe)
            let w := w.record (.connectNamedPipe env.pluginToGuiPipe)
            let ep := Endpoint.pipes env.guiToPluginPipe env.pluginToGuiPipe
            let w := (w.record (.channelNew ep)).setChannel (some ⟨ep, true⟩)
            let w := registerTimer env.timerSupportRegister w
            .returned true w

/-- The method `RemoteGui::spawn` (lines 44-196). -/
def spawn (plat : Platform) (env : SpawnEnv) (w : World) : SpawnResult :=
  match plat with
  | .unix => spawnUnix env w
  | .win32 => spawnWin32 env w

end RemoteGui

/-- Result of one call of `waitpid`: the returned value and the value of `errno`
after the call. -/
structure WaitResult where
  ret : Int
  errno : Nat
  deriving DecidableEq, Repr

namespace RemoteGui

/-- The method `RemoteGui::posixFd` (lines 211-216). -/
def posixFd (plat : Platform) (w : World) : Int :=
  match plat with
  | .unix =>
      match w.gui._channel with
      | some ch => ch.fd
      | none => -1
  | .win32 => -1

/-- The method `RemoteGui::removeFd` (lines 204-209): the descriptor is
unregistered on `unix` only, the timer on both platforms; the host drops the
registrations it holds for them. -/
def removeFd (plat : Platform) (w : World) : World :=
  let w := match plat with
    | .unix =>
        let fd := posixFd plat w
        { w.record (.posixFdSupportUnregister fd) with
          hostFds := w.hostFds.filter (fun r => r.1 ≠ fd) }
    | .win32 => w
  { w.record (.timerSupportUnregister w.gui._timerId) with
    hostTimers := w.hostTimers.filter (fun r => r.1 ≠ w.gui._timerId) }

/-- Modelled from the spec: `RemoteChannel::close` of `remote-channel.cc`, which
is not among the sources: "marks `transport_state = closed`, [...] asks Event
Control to remove the descriptor". The Event Control of the plugin-side channel
is the `RemoteGui` that owns it (`*this` in `spawn`), so the request is a call
of `RemoteGui::removeFd`. -/
def channelClose (plat : Platform) (w : World) : World :=
  let w := w.record .channelClose
  let w := w.setChannel (w.gui._channel.map (fun ch => { ch with isOpen := false }))
  removeFd plat w

/-- The loop of `RemoteGui::waitChild` (lines 307-309): call `k` of `waitpid`
answers `results k`; the loop goes on while the answer is `-1` with `EINTR`.
`none` when `fuel` calls were all interrupted. -/
def waitLoop (results : Nat → WaitResult) (pid : Int) : Nat → Nat → World → Option World
  | 0, _, _ => none
  | fuel + 1, k, w =>
      let w := w.record (.waitpid pid)
      if (results k).ret = -1 ∧ (results k).errno = EINTR then
        waitLoop results pid fuel (k + 1) w
      else
        some w

/-- The method `RemoteGui::waitChild` (lines 300-321). -/
def waitChild (plat : Platform) (results : Nat → WaitResult) (fuel : Nat) (w : World) :
    Option World :=
  match plat with
  | .unix =>
      if w.gui._child = -1 then some w
      else (waitLoop results w.gui._child fuel 0 w).map (fun w => w.setChild (-1))
  | .win32 =>
      match w.gui._data with
      | none => some w
      | some d => some ((w.record (.waitForSingleObject d.hProcess)).setData none)

/-- The method `RemoteGui::destroy` (lines 288-298). `none` when the wait for
the child did not end within `fuel` calls of `waitpid`. -/
def destroy (plat : Platform) (results : Nat → WaitResult) (fuel : Nat) (w : World) :
    Option World :=
  match w.gui._channel with
  | none => some w
  | some _ =>
      let w := w.record (.sendRequestAsync .kDestroyRequest .empty)
      let w := channelClose plat w
      let w := (w.record .channelReset).setChannel none
      waitChild plat results fuel w

/-- The handler `RemoteGui::onMessage` (lines 227-243). The label
`case messages::kSubscribeToTransportRequest` stands inside the block of the
`kAdjustRequest` case, after that block's `break`; being a label of the same
`switch`, it is where control is transferred for a message of that kind. -/
def onMessage (w : World) (msg : Message) : World :=
  match msg.type with
  | .kAdjustRequest =>
      match msg.payload with
      | .adjustRequest paramId value flags => w.record (.guiAdjust paramId value flags)
      | _ => w.record (.guiAdjust 0 0 0)
  | .kSubscribeToTransportRequest =>
      match msg.payload with
      | .subscribeToTransportRequest isSubscribed =>
          { w with gui := { w.gui with _isTransportSubscribed := isSubscribed } }
      | _ => { w with gui := { w.gui with _isTransportSubscribed := false } }
  | _ => w

/-- The method `RemoteGui::size` (lines 254-264). `sync` is the outcome of
`_channel->sendRequestSync(request, response)`: `none` for false, else the
response it filled in. The result is the returned boolean with the values of
`*width` and `*height` after the call. -/
def size (sync : Option SizeResponse) (width height : Nat) : Bool × Nat × Nat :=
  match sync with
  | none => (false, width, height)
  | some response => (true, response.width, response.height)

/-- The method `RemoteGui::setScale` (lines 266-274). -/
def setScale (sync : Option SetScaleResponse) : Bool :=
  match sync with
  | none => false
  | some response => response.succeed

/-- The method `RemoteGui::attachCocoa` (lines 323-328): the result of
`sendRequestSync` is returned as it is. -/
def attachCocoa (sync : Option AttachResponse) : Bool :=
  sync.isSome

/-- The method `RemoteGui::attachWin32` (lines 330-335). -/
def attachWin32 (sync : Option AttachResponse) : Bool :=
  sync.isSome

/-- The method `RemoteGui::attachX11` (lines 337-346). -/
def attachX11 (sync : Option AttachResponse) : Bool :=
  sync.isSome

end RemoteGui

/-! ## Command-line splitting, as the specification words it -/

/-- Push `n` pending backslashes onto the argument in progress. -/
def pushBackslashes (cur : Option (List Char)) (n : Nat) : Option (List Char) :=
  if n = 0 then cur else some (cur.getD [] ++ List.replicate n backslash)

/-- The Windows rules for splitting a command line into arguments, written from
the specification's words: backslashes are literal unless they precede a double
quote; `2n` backslashes before a double quote yield `n` backslashes and the
quote delimits; `2n+1` yield `n` backslashes and a literal quote; a blank or tab
outside quotes ends the argument. `bs` counts the backslashes just read, `inQ`
says whether a quoted part is open, `cur` is the argument in progress. -/
def splitArgs : List Char → Nat → Bool → Option (List Char) → List (List Char)
  | [], bs, _, cur =>
      match pushBackslashes cur bs with
      | some a => [a]
      | none => []
  | c :: cs, bs, inQ, cur =>
      if c = backslash then splitArgs cs (bs + 1) inQ cur
      else if c = dquote then
        let a := cur.getD [] ++ List.replicate (bs / 2) backslash
        if bs % 2 = 0 then splitArgs cs 0 (!inQ) (some a)
        else splitArgs cs 0 inQ (some (a ++ [dquote]))
      else
        let cur := pushBackslashes cur bs
        if (c = ' ' ∨ c = Char.ofNat 9) ∧ inQ = false then
          match cur with
          | some a => a :: splitArgs cs 0 false none
          | none => splitArgs cs 0 false none
        else splitArgs cs 0 inQ (some (cur.getD [] ++ [c]))

/-- The arguments a command line splits into. -/
def splitCommandLine (s : List Char) : List (List Char) :=
  splitArgs s 0 false none

/-- The order of teardown steps in a log: the steps occur in the log in the
given order (other calls may lie between them). -/
def StepsInOrder (steps log : List Call) : Prop :=
  List.Sublist steps log

instance (steps log : List Call) : Decidable (StepsInOrder steps log) := by
  unfold StepsInOrder
  infer_instance

/-! ## Concrete inputs -/

/-- A GUI built for Linux. -/
def linuxGui : GuiPlatform := ⟨true, false, false⟩

/-- A GUI whose view has no root object and which has sent nothing yet. -/
def guiNoRoot : Application := ⟨none, [], []⟩

/-- A fresh `RemoteGui` in a process holding the three standard descriptors. -/
def freshWorld : World :=
  ⟨⟨none, CLAP_INVALID_ID, -1, none, false⟩, [0, 1, 2], [], [], [], 0, []⟩

/-- A `RemoteGui` after a successful `spawn` on `unix`: channel over descriptor
3, child 42, timer 7. -/
def spawnedWorld : World :=
  ⟨⟨some ⟨.socket 3, true⟩, 7, 42, none, false⟩, [3, 0, 1, 2], [], [(3, 5)], [(7, 16)], 0, []⟩

/-- A skin directory that ends in a backslash: `C:\skins\`. -/
def skinsDir : List Char :=
  "C:".toList ++ [backslash] ++ "skins".toList ++ [backslash]

/-- An environment in which every system call works and the host accepts both
registrations. -/
def goodEnv : SpawnEnv :=
  { canUseTimerSupport := true
    canUsePosixFdSupport := true
    guiExecutable := "gui.exe".toList
    skinDirectory := skinsDir
    qmlLibDirectory := "qml".toList
    socketpair := some (3, 4)
    fork := 42
    posixFdSupportRegister := true
    timerSupportRegister := some 7
    processId := 4660
    pluginToGuiPipe := 5
    guiToPluginPipe := 6
    createProcess := some 9 }

/-- As `goodEnv`, but the host refuses both registrations. -/
def refusingHostEnv : SpawnEnv :=
  { goodEnv with posixFdSupportRegister := false, timerSupportRegister := none }

/-- As `goodEnv`, but `fork` fails. -/
def forkFailsEnv : SpawnEnv :=
  { goodEnv with fork := -1 }

/-- As `goodEnv`, but the host has no timer support. -/
def noTimerEnv : SpawnEnv :=
  { goodEnv with canUseTimerSupport := false }

/-- A child whose first two waits are interrupted and whose third succeeds. -/
def twiceInterrupted : Nat → WaitResult :=
  fun k => if k < 2 then ⟨-1, EINTR⟩ else ⟨42, 0⟩

/-- A child that has exited when it is first waited for. -/
def exitsAtOnce : Nat → WaitResult :=
  fun _ => ⟨42, 0⟩

/-! ## Predicates of the statements -/

/-- The conditions asserted at the head of `spawn`. -/
def AssertsHold (plat : Platform) (w : World) : Prop :=
  match plat with
  | .unix => w.gui._child = -1 ∧ w.gui._channel = none
  | .win32 => w.gui._data = none ∧ w.gui._channel = none

/-- A bring-up failure that `spawn` tests for: on `unix` a failed `socketpair`
or `fork`, on `win32` a null pipe handle or a failed `CreateProcess`. -/
def DetectedFailure (plat : Platform) (env : SpawnEnv) : Prop :=
  match plat with
  | .unix => env.socketpair = none ∨ env.fork = -1
  | .win32 => env.pluginToGuiPipe = 0 ∨ env.guiToPluginPipe = 0 ∨ env.createProcess = none

/-- No child process is recorded in the object. -/
def NoChild (plat : Platform) (w : World) : Prop :=
  match plat with
  | .unix => w.gui._child = -1
  | .win32 => w.gui._data = none

/-- The answer `r` of `waitpid` is an interruption. -/
def Interrupted (r : WaitResult) : Prop :=
  r.ret = -1 ∧ r.errno = EINTR

instance (r : WaitResult) : Decidable (Interrupted r) := by
  unfold Interrupted
  infer_instance

end ClapHost

/-! # Theorems -/

namespace ClapHost

/-! ## GUI-side handler -/

/-- C1: for a sync request kind other than SetScale, `Application::onMessage`
enqueues exactly one response, of the corresponding response kind and with the
cookie of the request; for SetScale, which has no `case` label, it does nothing
at all, so no response is enqueued and the application is left as it was. -/
theorem onMessage_sync_response_except_setScale (plat : GuiPlatform) (app : Application)
    (msg : Message) (hsync : msg.type ∈ syncRequestKinds) :
    (msg.type ≠ .kSetScaleRequest →
      ∃ rk rp, responseKind msg.type = some rk ∧
        (Application.onMessage plat app msg).sent = app.sent ++ [⟨rk, msg.cookie, rp⟩]) ∧
    (msg.type = .kSetScaleRequest → Application.onMessage plat app msg = app) := by
  obtain ⟨type, cookie, payload⟩ := msg
  cases type <;> simp [syncRequestKinds] at hsync <;>
    simp [Application.onMessage, Application.sendResponseAsync, Application.call,
      Application.embed, responseKind]
  all_goals split <;> simp

/-- C1, at a concrete input: a SetScale request with cookie 7 gets no response. -/
theorem onMessage_sync_response_except_setScale_witness :
    Application.onMessage linuxGui guiNoRoot ⟨.kSetScaleRequest, 7, .setScaleRequest 0⟩
      = guiNoRoot :=
  (onMessage_sync_response_except_setScale linuxGui guiNoRoot
    ⟨.kSetScaleRequest, 7, .setScaleRequest 0⟩ (by decide)).2 rfl

/-- C2: whatever message `Application::onMessage` handles, it enqueues either no
response or exactly one, and that one carries the cookie of the message; for the
kinds UpdateTransport, DefineParameter and ParameterValue it enqueues none. -/
theorem onMessage_response_cookie (plat : GuiPlatform) (app : Application) (msg : Message) :
    ((Application.onMessage plat app msg).sent = app.sent ∨
      ∃ rk rp, (Application.onMessage plat app msg).sent = app.sent ++ [⟨rk, msg.cookie, rp⟩]) ∧
    (∀ cookie payload,
      (Application.onMessage plat app ⟨.kUpdateTransportRequest, cookie, payload⟩).sent = app.sent ∧
      (Application.onMessage plat app ⟨.kDefineParameterRequest, cookie, payload⟩).sent = app.sent ∧
      (Application.onMessage plat app ⟨.kParameterValueRequest, cookie, payload⟩).sent
        = app.sent) := by
  refine ⟨?_, fun cookie payload => ⟨?_, ?_, ?_⟩⟩
  · obtain ⟨type, cookie, payload⟩ := msg
    cases type <;>
      simp [Application.onMessage, Application.sendResponseAsync, Application.call,
        Application.embed]
    all_goals first
      | done
      | (split <;> simp [Application.call])
  all_goals
    cases payload <;> simp [Application.onMessage, Application.call]

/-- C7: with no root object, `Application::onMessage` answers a SizeRequest of
cookie `c` by one SizeResponse of width 500 and height 300 with cookie `c`;
`RemoteGui::size` returns true and stores the width and height of the response
that a successful `sendRequestSync` delivered, hence (500, 300) for that answer;
when `sendRequestSync` returns false, `size` returns false and the two output
locations keep their values. -/
theorem size_handshake (plat : GuiPlatform) (sent : List Message) (calls : List GuiCall)
    (c : Nat) (payload : Payload) (r : SizeResponse) (width height : Nat) :
    (Application.onMessage plat ⟨none, sent, calls⟩ ⟨.kSizeRequest, c, payload⟩).sent
        = sent ++ [⟨.kSizeResponse, c, .sizeResponse ⟨500, 300⟩⟩] ∧
    RemoteGui.size (some r) width height = (true, r.width, r.height) ∧
    RemoteGui.size (some ⟨500, 300⟩) width height = (true, 500, 300) ∧
    RemoteGui.size none width height = (false, width, height) := by
  simp [Application.onMessage, Application.sendResponseAsync, RemoteGui.size]

/-! ## Bring-up -/

/-- C3, refuted as stated: the host refuses the descriptor registration and the
timer registration, and `spawn` still returns true, with the child recorded, the
channel constructed and the local socket open. -/
theorem spawn_rollback_counterexample :
    refusingHostEnv.posixFdSupportRegister = false ∧
    refusingHostEnv.timerSupportRegister = none ∧
    ∃ w, RemoteGui.spawn .unix refusingHostEnv freshWorld = .returned true w ∧
      w.gui._child = 42 ∧ w.gui._channel = some ⟨.socket 3, true⟩ ∧ 3 ∈ w.openFds := by
  refine ⟨rfl, rfl, _, rfl, ?_, ?_, ?_⟩ <;> decide

/-- C3, amended: when a bring-up step whose failure `spawn` tests for fails
(creating the transport pair, launching the child), `spawn` returns false and
afterwards no child is recorded, no channel exists, the descriptors and handles
held open are those held before the call, and the host holds the registrations
it held before the call. -/
theorem spawn_detected_failure_rolls_back (plat : Platform) (env : SpawnEnv) (w : World)
    (hassert : AssertsHold plat w) (hfail : DetectedFailure plat env) :
    ∃ w1, RemoteGui.spawn plat env w = .returned false w1 ∧
      NoChild plat w1 ∧ w1.gui._channel = none ∧
      w1.openFds = w.openFds ∧ w1.openHandles = w.openHandles ∧
      w1.hostFds = w.hostFds ∧ w1.hostTimers = w.hostTimers := by
  cases plat with
  | unix =>
      obtain ⟨hchild, hch⟩ := hassert
      simp only [RemoteGui.spawn, RemoteGui.spawnUnix, hchild, hch]
      by_cases hcap : (!env.canUseTimerSupport || !env.canUsePosixFdSupport) = true
      · simp [hcap, NoChild, hchild, hch]
      · rcases hsp : env.socketpair with _ | ⟨s0, s1⟩
        · simp [hcap, NoChild, World.record, hchild, hch]
        · have hfork : env.fork = -1 := by
            rcases hfail with h | h
            · rw [hsp] at h
              cases h
            · exact h
          simp [hcap, hfork, NoChild, World.record, World.close, World.setChild, hch]
  | win32 =>
      obtain ⟨hdata, hch⟩ := hassert
      simp only [RemoteGui.spawn, RemoteGui.spawnWin32, hdata, hch]
      by_cases hcap : (!env.canUseTimerSupport || !env.canUsePosixFdSupport) = true
      · simp [hcap, NoChild, hdata, hch]
      · by_cases hp : env.pluginToGuiPipe = 0
        · simp [hcap, hp, NoChild, World.record, World.setData, hch]
        · by_cases hg : env.guiToPluginPipe = 0
          · simp [hcap, hp, hg, NoChild, World.record, World.setData, World.closeHandle, hch]
          · have hcp : env.createProcess = none := by
              rcases hfail with h | h | h
              · exact absurd h hp
              · exact absurd h hg
              · exact h
            simp [hcap, hp, hg, hcp, NoChild, World.record, World.setData, World.closeHandle,
              hch]

/-- C3, amended, at a concrete input: `fork` fails after the pair 3, 4 was
created; both descriptors are closed again and nothing is recorded. -/
theorem spawn_detected_failure_rolls_back_witness :
    ∃ w1, RemoteGui.spawn .unix forkFailsEnv freshWorld = .returned false w1 ∧
      NoChild .unix w1 ∧ w1.gui._channel = none ∧
      w1.openFds = freshWorld.openFds ∧ w1.openHandles = freshWorld.openHandles ∧
      w1.hostFds = freshWorld.hostFds ∧ w1.hostTimers = freshWorld.hostTimers :=
  spawn_detected_failure_rolls_back .unix forkFailsEnv freshWorld ⟨rfl, rfl⟩ (Or.inr rfl)

/-- C4: when the host lacks timer support or descriptor support, `spawn` returns
false and the whole state is the one before the call: no call was made (the log
is unchanged), no descriptor or handle was opened, nothing was registered, and
`_channel`, `_child` and `_timerId` keep their values. -/
theorem spawn_without_host_support (plat : Platform) (env : SpawnEnv) (w : World)
    (hassert : AssertsHold plat w)
    (hcap : env.canUseTimerSupport = false ∨ env.canUsePosixFdSupport = false) :
    RemoteGui.spawn plat env w = .returned false w := by
  have hc : (!env.canUseTimerSupport || !env.canUsePosixFdSupport) = true := by
    rcases hcap with h | h <;> simp [h]
  cases plat with
  | unix =>
      obtain ⟨hchild, hch⟩ := hassert
      simp [RemoteGui.spawn, RemoteGui.spawnUnix, hchild, hch, hc]
  | win32 =>
      obtain ⟨hdata, hch⟩ := hassert
      simp [RemoteGui.spawn, RemoteGui.spawnWin32, hdata, hch, hc]

/-- C4, at a concrete input: a host without timer support. -/
theorem spawn_without_host_support_witness :
    RemoteGui.spawn .unix noTimerEnv freshWorld = .returned false freshWorld :=
  spawn_without_host_support .unix noTimerEnv freshWorld ⟨rfl, rfl⟩ (Or.inl rfl)

/-- The wait loop ends after `n + 1` calls of `waitpid` when the first `n`
answers from index `k` on are interruptions and the next one is not, given more
than `n` units of fuel; it changes nothing but the log. -/
theorem waitLoop_after_interruptions (results : Nat → WaitResult) (pid : Int) (n : Nat) :
    ∀ (fuel k : Nat) (w : World),
      (∀ i, i < n → Interrupted (results (k + i))) → ¬ Interrupted (results (k + n)) →
      n < fuel →
      RemoteGui.waitLoop results pid fuel k w
        = some { w with log := w.log ++ List.replicate (n + 1) (.waitpid pid) } := by
  induction n with
  | zero =>
      intro fuel k w _ hlast hfuel
      obtain ⟨f, rfl⟩ : ∃ f, fuel = f + 1 := ⟨fuel - 1, by omega⟩
      have hlast1 : ¬ ((results k).ret = -1 ∧ (results k).errno = EINTR) := by
        simpa [Interrupted] using hlast
      simp [RemoteGui.waitLoop, hlast1, World.record]
  | succ n ih =>
      intro fuel k w hint hlast hfuel
      obtain ⟨f, rfl⟩ : ∃ f, fuel = f + 1 := ⟨fuel - 1, by omega⟩
      have h0 : (results k).ret = -1 ∧ (results k).errno = EINTR := by
        simpa [Interrupted] using hint 0 (by omega)
      have hint1 : ∀ i, i < n → Interrupted (results (k + 1 + i)) := by
        intro i hi
        have := hint (i + 1) (by omega)
        rwa [show k + (i + 1) = k + 1 + i by omega] at this
      have hlast1 : ¬ Interrupted (results (k + 1 + n)) := by
        rwa [show k + (n + 1) = k + 1 + n by omega] at hlast
      have hrec := ih f (k + 1) (w.record (.waitpid pid)) hint1 hlast1 (by omega)
      rw [RemoteGui.waitLoop]
      simp only [h0, and_self, if_true]
      rw [hrec]
      simp [World.record, List.replicate_succ]

/-- C6, refuted as stated: on a spawned `RemoteGui` whose child has exited,
`destroy` unregisters the timer while the channel is being closed, before the
wait for the child; the log of the call does not contain the four steps in the
order enqueue, close, wait, unregister the timer. -/
theorem destroy_order_counterexample :
    ∃ w, RemoteGui.destroy .unix exitsAtOnce 1 spawnedWorld = some w ∧
      w.log = [.sendRequestAsync .kDestroyRequest .empty, .channelClose,
        .posixFdSupportUnregister 3, .timerSupportUnregister 7, .channelReset, .waitpid 42] ∧
      ¬ StepsInOrder [.sendRequestAsync .kDestroyRequest .empty, .channelClose, .waitpid 42,
        .timerSupportUnregister 7] w.log := by
  refine ⟨_, rfl, ?_, ?_⟩ <;> decide

/-- C6, amended: on a spawned `RemoteGui` (`unix`), when the first `n` waits are
interrupted and the next one is not, `destroy` returns after making exactly
these calls in this order: the asynchronous DestroyRequest, the close of the
channel, within it the removal of the descriptor and of the timer from the
host, the release of the channel, and `n + 1` calls of `waitpid` on the child.
Afterwards no channel and no child are recorded, the host no longer holds the
timer, and a second `destroy` changes nothing and makes no call. -/
theorem destroy_teardown_order (results : Nat → WaitResult) (n fuel : Nat) (w : World)
    (ch : RemoteChannel) (hch : w.gui._channel = some ch) (hchild : w.gui._child ≠ -1)
    (hint : ∀ i, i < n → Interrupted (results i)) (hlast : ¬ Interrupted (results n))
    (hfuel : n < fuel) :
    ∃ w1, RemoteGui.destroy .unix results fuel w = some w1 ∧
      w1.log = w.log ++ [.sendRequestAsync .kDestroyRequest .empty, .channelClose,
        .posixFdSupportUnregister ch.fd, .timerSupportUnregister w.gui._timerId,
        .channelReset] ++ List.replicate (n + 1) (.waitpid w.gui._child) ∧
      w1.gui._channel = none ∧ w1.gui._child = -1 ∧
      (∀ r, r ∈ w1.hostTimers → r.1 ≠ w.gui._timerId) ∧
      ∀ results2 fuel2, RemoteGui.destroy .unix results2 fuel2 w1 = some w1 := by
  have hint0 : ∀ i, i < n → Interrupted (results (0 + i)) := by
    intro i hi
    simpa using hint i hi
  have hlast0 : ¬ Interrupted (results (0 + n)) := by
    simpa using hlast
  simp only [RemoteGui.destroy, hch, RemoteGui.waitChild, RemoteGui.channelClose,
    RemoteGui.removeFd, RemoteGui.posixFd, World.record, World.setChannel, Option.map_some',
    hchild, if_false]
  rw [waitLoop_after_interruptions results _ n fuel 0 _ hint0 hlast0 hfuel]
  refine ⟨_, rfl, ?_, rfl, rfl, ?_, ?_⟩
  · simp [World.setChild, RemoteChannel.fd]
  · intro r hr
    simp only [World.setChild, List.mem_filter] at hr
    simpa using hr.2
  · intro results2 fuel2
    simp [World.setChild]

/-- C6, amended, at a concrete input: two interrupted waits, then the child is
reaped; the timer is unregistered before the first wait. -/
theorem destroy_teardown_order_witness :
    ∃ w1, RemoteGui.destroy .unix twiceInterrupted 3 spawnedWorld = some w1 ∧
      w1.log = [.sendRequestAsync .kDestroyRequest .empty, .channelClose,
        .posixFdSupportUnregister 3, .timerSupportUnregister 7, .channelReset,
        .waitpid 42, .waitpid 42, .waitpid 42] ∧
      w1.gui._channel = none ∧ w1.gui._child = -1 := by
  obtain ⟨w1, h, hlog, hc, hp, _, _⟩ :=
    destroy_teardown_order twiceInterrupted 2 3 spawnedWorld ⟨.socket 3, true⟩ rfl
      (by decide) (by intro i hi; interval_cases i <;> decide) (by decide) (by decide)
  exact ⟨w1, h, hlog, hc, hp⟩

/-! ## Plugin-side handler and synchronous calls -/

/-- C8: for an Adjust message carrying `(paramId, value, flags)`,
`RemoteGui::onMessage` makes exactly one call, `guiAdjust(paramId, value, flags)`,
and leaves the object, with its transport-subscription flag, as it was; for a
message of any other kind it makes no call, so `guiAdjust` is not called. -/
theorem onMessage_adjust (w : World) (cookie paramId : Nat) (value : Double) (flags : Nat)
    (other : Message) (hother : other.type ≠ .kAdjustRequest) :
    (RemoteGui.onMessage w ⟨.kAdjustRequest, cookie, .adjustRequest paramId value flags⟩).log
        = w.log ++ [.guiAdjust paramId value flags] ∧
    (RemoteGui.onMessage w ⟨.kAdjustRequest, cookie, .adjustRequest paramId value flags⟩).gui
        = w.gui ∧
    (RemoteGui.onMessage w other).log = w.log := by
  refine ⟨rfl, rfl, ?_⟩
  obtain ⟨type, c, payload⟩ := other
  cases type <;> simp [RemoteGui.onMessage] at hother ⊢
  cases payload <;> rfl

/-- C8, at a concrete input: the GUI sends Adjust with id 3, value -6.0 (bit
pattern `0xC018000000000000`) and flags 1; a DestroyResponse calls nothing. -/
theorem onMessage_adjust_witness :
    (RemoteGui.onMessage spawnedWorld
        ⟨.kAdjustRequest, 0, .adjustRequest 3 13841813454723219456 1⟩).log
        = [.guiAdjust 3 13841813454723219456 1] ∧
    (RemoteGui.onMessage spawnedWorld
        ⟨.kAdjustRequest, 0, .adjustRequest 3 13841813454723219456 1⟩).gui
        = spawnedWorld.gui ∧
    (RemoteGui.onMessage spawnedWorld ⟨.kDestroyResponse, 5, .empty⟩).log = [] :=
  onMessage_adjust spawnedWorld 0 3 13841813454723219456 1 ⟨.kDestroyResponse, 5, .empty⟩
    (by decide)

/-- C9, evaluated on the code: a GUI built for Linux answers an AttachWin32
request of cookie `c` by an AttachResponse with `succeed = false`; given that
response by a completed `sendRequestSync`, `attachWin32` returns true, and so do
`attachX11` and `attachCocoa` for every response `r`, whatever its `succeed`
field; `setScale`, in contrast, returns the `succeed` field of its response. -/
theorem attach_ignores_succeed (sent : List Message) (calls : List GuiCall) (c : Nat)
    (payload : Payload) (r : AttachResponse) (r2 : SetScaleResponse) :
    (Application.onMessage linuxGui ⟨none, sent, calls⟩ ⟨.kAttachWin32Request, c, payload⟩).sent
        = sent ++ [⟨.kAttachResponse, c, .attachResponse ⟨false⟩⟩] ∧
    RemoteGui.attachWin32 (some ⟨false⟩) = true ∧
    RemoteGui.attachWin32 (some r) = true ∧
    RemoteGui.attachX11 (some r) = true ∧
    RemoteGui.attachCocoa (some r) = true ∧
    RemoteGui.setScale (some r2) = r2.succeed := by
  refine ⟨?_, rfl, rfl, rfl, rfl, rfl⟩
  simp [Application.onMessage, Application.sendResponseAsync, linuxGui]

/-! ## Argument quoting -/

set_option maxRecDepth 20000

/-- Inside an open quoted part, the escaped form of a text without backslashes,
followed by the closing quote, adds exactly that text to the argument. -/
theorem splitArgs_escaped_body (s : List Char) :
    ∀ acc : List Char, (∀ c, c ∈ s → c ≠ backslash) →
      splitArgs (s.flatMap (fun c => if c = dquote then [backslash, dquote] else [c])
        ++ [dquote]) 0 true (some acc) = [acc ++ s] := by
  have hdb : dquote ≠ backslash := by decide
  induction s with
  | nil =>
      intro acc _
      simp [splitArgs, hdb, pushBackslashes]
  | cons c s ih =>
      intro acc hs
      have hc : c ≠ backslash := hs c (List.mem_cons_self c s)
      have hs1 : ∀ d, d ∈ s → d ≠ backslash := fun d hd => hs d (List.mem_cons_of_mem c hd)
      by_cases hq : c = dquote
      · subst hq
        simpa [List.flatMap_cons, splitArgs, hdb] using ih (acc ++ [dquote]) hs1
      · simpa [List.flatMap_cons, hq, splitArgs, hc, pushBackslashes] using
          ih (acc ++ [c]) hs1

/-- A text without backslashes survives `escapeArg`: the result splits into the
one argument it was made from. -/
theorem escapeArg_roundtrip_without_backslash (s : List Char)
    (hs : ∀ c, c ∈ s → c ≠ backslash) :
    splitCommandLine (escapeArg s) = [s] := by
  have hdb : dquote ≠ backslash := by decide
  simpa [splitCommandLine, escapeArg, splitArgs, hdb] using splitArgs_escaped_body s [] hs

/-- C10, evaluated on the code: for the directory `C:\skins\`, `escapeArg` yields
`"C:\skins\"`, whose last backslash escapes the closing quote: it splits into
the one argument `C:\skins"`, which is not the directory; and in the command
line that `spawn` assembles with this skin directory, the skin argument swallows
every option that follows it. -/
theorem escapeArg_trailing_backslash :
    escapeArg skinsDir
        = [dquote] ++ "C:".toList ++ [backslash] ++ "skins".toList ++ [backslash, dquote] ∧
    splitCommandLine (escapeArg skinsDir)
        = ["C:".toList ++ [backslash] ++ "skins".toList ++ [dquote]] ∧
    splitCommandLine (escapeArg skinsDir) ≠ [skinsDir] ∧
    (splitCommandLine (cmdline goodEnv.guiExecutable goodEnv.skinDirectory
        goodEnv.qmlLibDirectory (pipeInPath 4660 1) (pipeOutPath 4660 1))).length = 3 := by
  refine ⟨?_, ?_, ?_, ?_⟩ <;> decide

/-! ## The nested `case` label of the plugin-side handler -/

/-- C11, refuted as stated: on a `RemoteGui` whose transport-subscription flag is
false, a SubscribeToTransport message with `isSubscribed = true` is handled by
the nested label and the flag is true afterwards: it did not stay unchanged. -/
theorem onMessage_subscribe_counterexample :
    spawnedWorld.gui._isTransportSubscribed = false ∧
    (RemoteGui.onMessage spawnedWorld
        ⟨.kSubscribeToTransportRequest, 0, .subscribeToTransportRequest true⟩).gui._isTransportSubscribed
      = true ∧
    (RemoteGui.onMessage spawnedWorld
        ⟨.kSubscribeToTransportRequest, 0, .subscribeToTransportRequest true⟩).gui._isTransportSubscribed
      ≠ spawnedWorld.gui._isTransportSubscribed := by
  refine ⟨rfl, rfl, ?_⟩
  decide

/-- C11, amended: the SubscribeToTransport label, although it stands inside the
block of the Adjust case, is reached: for every SubscribeToTransport message
with payload `isSubscribed = b`, `RemoteGui::onMessage` sets
`_isTransportSubscribed` to `b`, changes no other member and nothing else of the
process, and makes no call (in particular not `guiAdjust`). -/
theorem onMessage_subscribe_sets_flag (w : World) (cookie : Nat) (b : Bool) :
    (RemoteGui.onMessage w
        ⟨.kSubscribeToTransportRequest, cookie, .subscribeToTransportRequest b⟩).gui
      = { w.gui with _isTransportSubscribed := b } ∧
    RemoteGui.onMessage w ⟨.kSubscribeToTransportRequest, cookie, .subscribeToTransportRequest b⟩
      = { w with gui := { w.gui with _isTransportSubscribed := b } } ∧
    (RemoteGui.onMessage w
        ⟨.kSubscribeToTransportRequest, cookie, .subscribeToTransportRequest b⟩).log
      = w.log := by
  simp [RemoteGui.onMessage]

end ClapHost
